import Mathlib

/-!
Shallow embedding of the `svg-generator` repository for verification.

Part 1 embeds `src/types.ts` and `src/components/RetirementEngine.tsx`:
the engine state machine (`runSimulation`, `addLog`, the fixed timer
`timeline`), the `STRATEGIES` fixture table, the `WealthChart` coordinate
math (`getX`, `getY`, `maxVal`) and the donut-chart conic-gradient
segments.  JavaScript `number` fields are modelled as `ℚ` (the literals in
the source are all short decimals, and the only arithmetic on them is the
chart's linear mapping, far from any rounding boundary).  The `id` field of
an `EngineLog` is `Date.now().toString()` in the source - a wall-clock
display value used only as a React key - and is not modelled.

React `setX` state-setter calls and `addLog` calls are embedded as a small
`UIAction` type with an interpreter `applyAction`; each `setTimeout` closure
of the source timeline is the list of calls in its body, in order.  Timers
fire in delay order (ties in insertion order), modelled by the stable
`fireOrder` sort.

Part 2 embeds `src/unnamed/part_000` (the SVG tool's types); the tool's
generation handler itself is not under `src/`, so it is modelled from the
spec where marked.
-/

/-- `EngineState` from `src/types.ts`: `'idle' | 'processing' | 'complete'`. -/
inductive EngineState
  | idle
  | processing
  | complete
deriving DecidableEq

/-- The `type` field of `EngineLog`: `'info' | 'success' | 'process'`. -/
inductive LogType
  | info
  | success
  | process
deriving DecidableEq

/-- `EngineLog` from `src/types.ts` (without the wall-clock `id` display field). -/
structure EngineLog where
  message : String
  type : LogType
deriving DecidableEq

/-- The `riskLevel` field of `StrategyDetails`: `'Low' | 'Medium' | 'High'`. -/
inductive RiskLevel
  | Low
  | Medium
  | High
deriving DecidableEq

/-- An element of the `assets` list of `StrategyDetails`. -/
structure Asset where
  name : String
  value : ℚ
  color : String
deriving DecidableEq

/-- An element of the `projection` list of `StrategyDetails`. -/
structure ProjPoint where
  year : String
  value : ℚ
  baseline : ℚ
deriving DecidableEq

/-- `StrategyDetails` from `src/types.ts`. -/
structure StrategyDetails where
  id : String
  title : String
  description : String
  color : String
  riskLevel : RiskLevel
  successRate : ℚ
  monthlyIncome : String
  endAge : ℚ
  assets : List Asset
  projection : List ProjPoint
deriving DecidableEq

/-- The `conservative` entry of the `STRATEGIES` table
(`src/components/RetirementEngine.tsx`, lines 18-40). -/
def conservative : StrategyDetails :=
  { id := "conservative"
    title := "Principal Protection"
    description := "Prioritizes capital preservation with stable, inflation-adjusted income streams. Ideal for risk-averse legacy planning."
    color := "emerald"
    riskLevel := RiskLevel.Low
    successRate := 99.8
    monthlyIncome := "$6,200"
    endAge := 89
    assets :=
      [ { name := "Bonds/Fixed Income", value := 60, color := "#10b981" },
        { name := "Blue Chip Stocks", value := 30, color := "#34d399" },
        { name := "Cash Reserves", value := 10, color := "#6ee7b7" } ]
    projection :=
      [ { year := "2025", value := 100, baseline := 100 },
        { year := "2030", value := 125, baseline := 135 },
        { year := "2035", value := 145, baseline := 180 },
        { year := "2040", value := 160, baseline := 240 },
        { year := "2045", value := 170, baseline := 310 },
        { year := "2050", value := 165, baseline := 390 } ] }

/-- The `balanced` entry of the `STRATEGIES` table (lines 41-64). -/
def balanced : StrategyDetails :=
  { id := "balanced"
    title := "Balanced Growth"
    description := "The optimal blend of growth and income. Dynamically adjusts allocation based on market volatility and personal health events."
    color := "blue"
    riskLevel := RiskLevel.Medium
    successRate := 94.5
    monthlyIncome := "$8,400"
    endAge := 92
    assets :=
      [ { name := "Global Equities", value := 50, color := "#3b82f6" },
        { name := "Real Estate / REITS", value := 20, color := "#60a5fa" },
        { name := "Govt Bonds", value := 25, color := "#93c5fd" },
        { name := "Crypto/Alt", value := 5, color := "#bfdbfe" } ]
    projection :=
      [ { year := "2025", value := 100, baseline := 100 },
        { year := "2030", value := 140, baseline := 135 },
        { year := "2035", value := 190, baseline := 180 },
        { year := "2040", value := 250, baseline := 240 },
        { year := "2045", value := 310, baseline := 310 },
        { year := "2050", value := 290, baseline := 390 } ] }

/-- The `aggressive` entry of the `STRATEGIES` table (lines 65-87). -/
def aggressive : StrategyDetails :=
  { id := "aggressive"
    title := "Legacy Builder"
    description := "Maximum growth potential for leaving a substantial inheritance or charitable foundation. High volatility tolerance required."
    color := "amber"
    riskLevel := RiskLevel.High
    successRate := 88.2
    monthlyIncome := "$11,200"
    endAge := 96
    assets :=
      [ { name := "Growth Stocks", value := 60, color := "#f59e0b" },
        { name := "Emerging Markets", value := 25, color := "#fbbf24" },
        { name := "Venture/PE", value := 15, color := "#fcd34d" } ]
    projection :=
      [ { year := "2025", value := 100, baseline := 100 },
        { year := "2030", value := 160, baseline := 135 },
        { year := "2035", value := 240, baseline := 180 },
        { year := "2040", value := 380, baseline := 240 },
        { year := "2045", value := 550, baseline := 310 },
        { year := "2050", value := 720, baseline := 390 } ] }

/-- The `STRATEGIES` record (`Record<string, StrategyDetails>`), as its
key-value pairs in declaration order. -/
def STRATEGIES : List (String × StrategyDetails) :=
  [("conservative", conservative), ("balanced", balanced), ("aggressive", aggressive)]

/-- The React component state of `RetirementEngine`: the five `useState`
cells (`state`, `logs`, `activeEngine`, `selectedStrategy`, `inputStep`). -/
structure CState where
  state : EngineState
  logs : List EngineLog
  activeEngine : Option String
  selectedStrategy : Option StrategyDetails
  inputStep : Nat
deriving DecidableEq

/-- The initial component state: the five `useState` initialisers. -/
def initialState : CState :=
  { state := EngineState.idle
    logs := []
    activeEngine := none
    selectedStrategy := none
    inputStep := 0 }

/-- A sample component state as left behind by a finished run: used to
exercise the reset branch on a concrete input. -/
def completeSampleState : CState :=
  { state := EngineState.complete
    logs := [{ message := "Strategic Roadmap Generated.", type := LogType.success }]
    activeEngine := none
    selectedStrategy := some balanced
    inputStep := 4 }

/-- `addLog` (line 107): `setLogs(prev => [...prev.slice(-4), newEntry])` -
keep the last four existing entries and append the new one. -/
def addLogList (logs : List EngineLog) (message : String) (type : LogType) : List EngineLog :=
  logs.drop (logs.length - 4) ++ [{ message := message, type := type }]

/-- One state-setter or `addLog` call of the component, as data. -/
inductive UIAction
  | setState (v : EngineState)
  | setLogs (v : List EngineLog)
  | setActiveEngine (v : Option String)
  | setSelectedStrategy (v : Option StrategyDetails)
  | setInputStep (v : Nat)
  | addLog (message : String) (type : LogType)
deriving DecidableEq

/-- Interpreter for a single setter / `addLog` call. -/
def applyAction (s : CState) : UIAction → CState
  | UIAction.setState v => { s with state := v }
  | UIAction.setLogs v => { s with logs := v }
  | UIAction.setActiveEngine v => { s with activeEngine := v }
  | UIAction.setSelectedStrategy v => { s with selectedStrategy := v }
  | UIAction.setInputStep v => { s with inputStep := v }
  | UIAction.addLog m t => { s with logs := addLogList s.logs m t }

/-- Apply a list of calls in order. -/
def applyActions (acts : List UIAction) (s : CState) : CState :=
  acts.foldl applyAction s

/-- The `timeline` of `runSimulation` (lines 124-137): each entry is a
`setTimeout` delay together with the calls made by its closure, in order. -/
def timeline : List (Nat × List UIAction) :=
  [ (500, [UIAction.setInputStep 1, UIAction.addLog "Reading Personal Bio (Age, ZIP, Family History)..." LogType.process]),
    (1200, [UIAction.setInputStep 2, UIAction.addLog "Analyzing Lifestyle: Diet, Exercise, Sleep patterns..." LogType.process]),
    (2000, [UIAction.setInputStep 3, UIAction.addLog "Syncing Financials: Income, 401k, Debts..." LogType.process]),
    (2800, [UIAction.setInputStep 4, UIAction.addLog "Data Stream Verified & Normalized." LogType.success]),
    (3200, [UIAction.setActiveEngine (some "lookup"), UIAction.addLog "Lookup Engine: Fetching actuarial tables & market data..." LogType.process]),
    (4000, [UIAction.setActiveEngine (some "mortality"), UIAction.addLog "Mortality Engine: Calculating biological longevity..." LogType.process]),
    (4800, [UIAction.setActiveEngine (some "income"), UIAction.addLog "Income Engine: Projecting salary growth curves..." LogType.process]),
    (5600, [UIAction.setActiveEngine (some "expenses"), UIAction.addLog "Expenses Engine: Modeling healthcare & lifestyle inflation..." LogType.process]),
    (6400, [UIAction.setActiveEngine (some "fees"), UIAction.addLog "Fee Engine: Optimizing tax-drag & expense ratios..." LogType.process]),
    (7200, [UIAction.setActiveEngine (some "peers"), UIAction.addLog "Peer Engine: Benchmarking against top 10% cohort..." LogType.process]),
    (8000, [UIAction.setActiveEngine (some "decum"), UIAction.addLog "Decumulation Engine: Generating withdrawal strategies..." LogType.process]),
    (9000, [UIAction.setState EngineState.complete, UIAction.setActiveEngine none, UIAction.addLog "Strategic Roadmap Generated." LogType.success]) ]

/-- The reset calls of the `state === 'complete'` branch of `runSimulation`
(lines 113-117), in order. -/
def resetActions : List UIAction :=
  [ UIAction.setState EngineState.idle,
    UIAction.setLogs [],
    UIAction.setActiveEngine none,
    UIAction.setInputStep 0,
    UIAction.setSelectedStrategy none ]

/-- The immediate calls of the start branch of `runSimulation`
(lines 121-122), in order. -/
def startActions : List UIAction :=
  [ UIAction.setState EngineState.processing,
    UIAction.addLog "Initializing LifePlan Core System..." LogType.info ]

/-- `runSimulation` (lines 110-140), split into the calls it makes
immediately and the timers it schedules: the `'processing'` guard returns
at once; the `'complete'` branch resets and returns; otherwise it starts
the run and schedules the whole `timeline`. -/
def runSimulation (s : CState) : List UIAction × List (Nat × List UIAction) :=
  if s.state = EngineState.processing then ([], [])
  else if s.state = EngineState.complete then (resetActions, [])
  else (startActions, timeline)

/-- The component state after the synchronous part of `runSimulation`,
together with the timers it scheduled. -/
def runStep (s : CState) : CState × List (Nat × List UIAction) :=
  (applyActions (runSimulation s).1 s, (runSimulation s).2)

/-- Scheduled timers fire in delay order, ties in insertion order
(the JavaScript timer queue): a stable sort on the delay. -/
def fireOrder (ts : List (Nat × List UIAction)) : List (Nat × List UIAction) :=
  List.insertionSort (fun a b => a.1 ≤ b.1) ts

/-- Run `runSimulation` and then let every scheduled timer fire. -/
def runToCompletion (s : CState) : CState :=
  (fireOrder (runStep s).2).foldl (fun st e => applyActions e.2 st) (runStep s).1

/-- All setter / `addLog` calls a call to `runSimulation` performs, in
execution order: the immediate ones, then those of the timers as they fire. -/
def runActionTrace (s : CState) : List UIAction :=
  (runSimulation s).1 ++ (fireOrder (runSimulation s).2).flatMap Prod.snd

/-- The log message appended by a call, if it is an `addLog` call. -/
def logMessageOf : UIAction → Option String
  | UIAction.addLog m _ => some m
  | _ => none

/-- The sequence of log messages appended during a run. -/
def runLogMessages (s : CState) : List String :=
  (runActionTrace s).filterMap logMessageOf

/-- The module highlighted by a call, if it is a `setActiveEngine` call
with a non-null module identifier. -/
def highlightOf : UIAction → Option String
  | UIAction.setActiveEngine (some e) => some e
  | _ => none

/-- The sequence of `activeEngine` highlights set during a run. -/
def runHighlights (s : CState) : List String :=
  (runActionTrace s).filterMap highlightOf

/-- The three strategy records offered in the results column
(lines 538-553): `STRATEGIES.conservative`, `.balanced`, `.aggressive`. -/
def offeredStrategies : List StrategyDetails :=
  [conservative, balanced, aggressive]

/-- `WealthChart` (lines 565-573): chart height. -/
def chartHeight : ℚ := 250

/-- `WealthChart`: chart width. -/
def chartWidth : ℚ := 500

/-- `WealthChart`: padding. -/
def chartPadding : ℚ := 20

/-- `maxVal` (line 567): 1.1 times the maximum over all `value` and
`baseline` entries.  `Math.max` over the (always non-empty, positive)
spread is modelled as a fold of `max` from `0`. -/
def maxVal (data : List ProjPoint) : ℚ :=
  ((data.map (fun d => max d.value d.baseline)).foldl max 0) * 1.1

/-- `getX` (line 572): `padding + index * (width - 2 * padding) / (data.length - 1)`. -/
def getX (data : List ProjPoint) (index : Nat) : ℚ :=
  chartPadding + ((index : ℚ) * (chartWidth - 2 * chartPadding)) / ((data.length : ℚ) - 1)

/-- `getY` (line 573): `height - padding - (value / maxVal) * (height - 2 * padding)`. -/
def getY (data : List ProjPoint) (value : ℚ) : ℚ :=
  chartHeight - chartPadding - (value / maxVal data) * (chartHeight - 2 * chartPadding)

/-- The donut chart's conic-gradient segments (lines 244-249): segment `i`
is `(color, prev, prev + value)` where `prev` sums the `value` fields of
the preceding assets. -/
def donutSegments (assets : List Asset) : List (String × ℚ × ℚ) :=
  assets.enum.map (fun p =>
    let prev := ((assets.take p.1).map Asset.value).sum
    (p.2.color, prev, prev + p.2.value))

/-- One `setLogs`-touching operation on the `logs` list: an `addLog` call,
or a reset (`setLogs([])`). -/
inductive LogOp
  | add (message : String) (type : LogType)
  | reset

/-- Apply one log operation. -/
def applyLogOp (logs : List EngineLog) : LogOp → List EngineLog
  | LogOp.add m t => addLogList logs m t
  | LogOp.reset => []

/-- Apply a sequence of log operations starting from the empty list. -/
def applyLogOps (ops : List LogOp) : List EngineLog :=
  ops.foldl applyLogOp []

/-! ## The SVG tool (`src/unnamed/part_000` types; handler modelled from the spec) -/

/-- `GenerationStatus` from `src/unnamed/part_000`. -/
inductive GenerationStatus
  | IDLE
  | LOADING
  | SUCCESS
  | ERROR
deriving DecidableEq

/-- `GeneratedSvg` from `src/unnamed/part_000`. -/
structure GeneratedSvg where
  id : String
  content : String
  prompt : String
  timestamp : Int
deriving DecidableEq

/-- `ApiError` from `src/unnamed/part_000`: a required `message` and an
optional `details` string. -/
structure ApiError where
  message : String
  details : Option String
deriving DecidableEq

/-- The SVG tool's display state: a status, the current generated SVG if
any, and the error value if any. -/
structure SvgToolState where
  status : GenerationStatus
  current : Option GeneratedSvg
  error : Option ApiError
deriving DecidableEq

/-- Modelled from the spec: the request the tool sends.  The component that
performs the generation is not under `src/` (only its types are); per the
spec the tool "forwards a text prompt to a generative-AI API", so the
request body is the submitted prompt, unchanged. -/
def apiRequestPrompt (prompt : String) : String :=
  prompt

/-- Modelled from the spec: the generation handler, which is not under
`src/` (only its types in `src/unnamed/part_000` are).  Per the spec it is
a "thin call-and-render wrapper" with "no retry, caching, or
failure-recovery path" and "no failure handling beyond displaying an error
message string from a failed network call": the single API outcome
`apiResult` either yields a `GeneratedSvg` record (status `SUCCESS`) or the
`ApiError` is stored as-is (status `ERROR`). -/
def handleGeneration (prompt gid : String) (timestamp : Int)
    (apiResult : Except ApiError String) : SvgToolState :=
  match apiResult with
  | Except.error e =>
      { status := GenerationStatus.ERROR, current := none, error := some e }
  | Except.ok content =>
      { status := GenerationStatus.SUCCESS
        current := some { id := gid, content := content
                          prompt := apiRequestPrompt prompt, timestamp := timestamp }
        error := none }

/-! ## Helper lemmas -/

/-- From the idle state `runSimulation` takes the start branch. -/
lemma runSimulation_idle (s : CState) (h : s.state = EngineState.idle) :
    runSimulation s = (startActions, timeline) := by
  simp [runSimulation, h]

/-- From the complete state `runSimulation` takes the reset branch. -/
lemma runSimulation_complete (s : CState) (h : s.state = EngineState.complete) :
    runSimulation s = (resetActions, []) := by
  simp [runSimulation, h]

/-- The timeline's delays are already in firing order. -/
lemma fireOrder_timeline : fireOrder timeline = timeline := by
  rfl

/-- The fixed script of log messages of a run started from idle. -/
lemma runLogMessages_idle (s : CState) (h : s.state = EngineState.idle) :
    runLogMessages s =
      [ "Initializing LifePlan Core System...",
        "Reading Personal Bio (Age, ZIP, Family History)...",
        "Analyzing Lifestyle: Diet, Exercise, Sleep patterns...",
        "Syncing Financials: Income, 401k, Debts...",
        "Data Stream Verified & Normalized.",
        "Lookup Engine: Fetching actuarial tables & market data...",
        "Mortality Engine: Calculating biological longevity...",
        "Income Engine: Projecting salary growth curves...",
        "Expenses Engine: Modeling healthcare & lifestyle inflation...",
        "Fee Engine: Optimizing tax-drag & expense ratios...",
        "Peer Engine: Benchmarking against top 10% cohort...",
        "Decumulation Engine: Generating withdrawal strategies...",
        "Strategic Roadmap Generated." ] := by
  simp only [runLogMessages, runActionTrace, runSimulation_idle s h]
  rfl

/-- The fixed sequence of module highlights of a run started from idle. -/
lemma runHighlights_idle (s : CState) (h : s.state = EngineState.idle) :
    runHighlights s =
      ["lookup", "mortality", "income", "expenses", "fees", "peers", "decum"] := by
  simp only [runHighlights, runActionTrace, runSimulation_idle s h]
  rfl

/-- A run started from idle ends in the complete state. -/
lemma runToCompletion_idle_state (s : CState) (h : s.state = EngineState.idle) :
    (runToCompletion s).state = EngineState.complete := by
  simp only [runToCompletion, runStep, runSimulation_idle s h]
  rfl

/-! ## Claims -/

/-- Claim C1: every run of the engine started from the idle state displays
results independent of any user input: any two such runs produce the same
sequence of log messages and the same sequence of `activeEngine`
highlights, both end in the complete state, and the results column then
offers exactly the three fixed strategy records of the `STRATEGIES` table,
whose numeric fields (`successRate`, `endAge`, `assets` values,
`projection` points) are the hard-coded constants. -/
theorem claim_C1_results_independent_of_input (s₁ s₂ : CState)
    (h₁ : s₁.state = EngineState.idle) (h₂ : s₂.state = EngineState.idle) :
    runLogMessages s₁ = runLogMessages s₂ ∧
    runHighlights s₁ = runHighlights s₂ ∧
    (runToCompletion s₁).state = EngineState.complete ∧
    (runToCompletion s₂).state = EngineState.complete ∧
    STRATEGIES.map Prod.fst = ["conservative", "balanced", "aggressive"] ∧
    offeredStrategies = STRATEGIES.map Prod.snd ∧
    offeredStrategies.map StrategyDetails.successRate = [99.8, 94.5, 88.2] ∧
    offeredStrategies.map StrategyDetails.endAge = [89, 92, 96] ∧
    offeredStrategies.map (fun t => t.assets.map Asset.value) =
      [[60, 30, 10], [50, 20, 25, 5], [60, 25, 15]] ∧
    offeredStrategies.map (fun t => t.projection.map (fun q => (q.value, q.baseline))) =
      [ [(100, 100), (125, 135), (145, 180), (160, 240), (170, 310), (165, 390)],
        [(100, 100), (140, 135), (190, 180), (250, 240), (310, 310), (290, 390)],
        [(100, 100), (160, 135), (240, 180), (380, 240), (550, 310), (720, 390)] ] := by
  refine ⟨?_, ?_, runToCompletion_idle_state s₁ h₁, runToCompletion_idle_state s₂ h₂,
    rfl, rfl, rfl, rfl, rfl, rfl⟩
  · rw [runLogMessages_idle s₁ h₁, runLogMessages_idle s₂ h₂]
  · rw [runHighlights_idle s₁ h₁, runHighlights_idle s₂ h₂]

/-- Witness for C1 at the initial state. -/
theorem claim_C1_witness :
    initialState.state = EngineState.idle ∧
    (runToCompletion initialState).state = EngineState.complete :=
  ⟨rfl, (claim_C1_results_independent_of_input initialState initialState rfl rfl).2.2.1⟩

/-- Claim C2: `runSimulation` leaves every piece of component state
unchanged and schedules no timer exactly when the engine state is
`'processing'` - the processing guard returns immediately, and it is the
only branch that does so. -/
theorem claim_C2_processing_guard (s : CState) :
    runStep s = (s, []) ↔ s.state = EngineState.processing := by
  constructor
  · intro h
    cases hs : s.state with
    | idle =>
      exfalso
      have h3 : (runStep s).2 = timeline := by
        simp only [runStep, runSimulation_idle s hs]
      rw [h] at h3
      exact absurd h3.symm (by simp [timeline])
    | processing => rfl
    | complete =>
      exfalso
      have h3 : (runStep s).1 = applyActions resetActions s := by
        simp only [runStep, runSimulation_complete s hs]
      rw [h] at h3
      have h5 : s = applyActions resetActions s := h3
      have h4 : s.state = EngineState.idle := congrArg CState.state h5
      rw [hs] at h4
      exact absurd h4 (by decide)
  · intro h
    simp [runStep, runSimulation, h, applyActions]

/-- Claim C3: a run started from idle plays back the fixed script: exactly
13 log messages in a fixed order, beginning with the initialization line
and ending with "Strategic Roadmap Generated.", and the module highlights
are exactly the seven identifiers in order. -/
theorem claim_C3_scripted_sequence (s : CState) (h : s.state = EngineState.idle) :
    runLogMessages s =
      [ "Initializing LifePlan Core System...",
        "Reading Personal Bio (Age, ZIP, Family History)...",
        "Analyzing Lifestyle: Diet, Exercise, Sleep patterns...",
        "Syncing Financials: Income, 401k, Debts...",
        "Data Stream Verified & Normalized.",
        "Lookup Engine: Fetching actuarial tables & market data...",
        "Mortality Engine: Calculating biological longevity...",
        "Income Engine: Projecting salary growth curves...",
        "Expenses Engine: Modeling healthcare & lifestyle inflation...",
        "Fee Engine: Optimizing tax-drag & expense ratios...",
        "Peer Engine: Benchmarking against top 10% cohort...",
        "Decumulation Engine: Generating withdrawal strategies...",
        "Strategic Roadmap Generated." ] ∧
    (runLogMessages s).length = 13 ∧
    runHighlights s =
      ["lookup", "mortality", "income", "expenses", "fees", "peers", "decum"] := by
  refine ⟨runLogMessages_idle s h, ?_, runHighlights_idle s h⟩
  rw [runLogMessages_idle s h]
  rfl

/-- Witness for C3 at the initial state. -/
theorem claim_C3_witness :
    initialState.state = EngineState.idle ∧ (runLogMessages initialState).length = 13 :=
  ⟨rfl, (claim_C3_scripted_sequence initialState rfl).2.1⟩

/-- Claim C4: the timeline is a fixed list of 12 timer entries with
strictly increasing delays 500..9000 ms, so they fire in list order, and
the final entry's actions set the engine state to complete and clear
`activeEngine` to null. -/
theorem claim_C4_timeline_structure :
    timeline.length = 12 ∧
    timeline.map Prod.fst =
      [500, 1200, 2000, 2800, 3200, 4000, 4800, 5600, 6400, 7200, 8000, 9000] ∧
    List.Chain' (· < ·) (timeline.map Prod.fst) ∧
    fireOrder timeline = timeline ∧
    (∀ s : CState,
      (timeline.getLast?).map
          (fun e => ((applyActions e.2 s).state, (applyActions e.2 s).activeEngine)) =
        some (EngineState.complete, none)) :=
  ⟨rfl, rfl, by norm_num [timeline, List.chain'_cons], fireOrder_timeline, fun _ => rfl⟩

/-- On the six-point projection lists, `getX` is the linear map `20 + 92 i`. -/
lemma getX_formula (data : List ProjPoint) (hlen : data.length = 6) (i : Nat) :
    getX data i = 20 + 92 * i := by
  rw [getX, hlen]
  norm_num [chartPadding, chartWidth]
  ring

/-- Any positive value at most `maxVal / 1.1` is mapped by `getY` into the
open interval `(20, 230)`. -/
lemma getY_bounds (data : List ProjPoint) (v : ℚ)
    (hv : 0 < v) (hvM : v * 1.1 ≤ maxVal data) :
    20 < getY data v ∧ getY data v < 230 := by
  have hMpos : 0 < maxVal data := lt_of_lt_of_le (by linarith) hvM
  rw [getY, chartHeight, chartPadding]
  constructor
  · have h1 : v / maxVal data ≤ 10 / 11 := by
      rw [div_le_div_iff₀ hMpos (by norm_num)]
      linarith
    nlinarith [h1]
  · have h2 : 0 < v / maxVal data := div_pos hv hMpos
    nlinarith [h2]

/-- Chart bounds for a six-point projection list whose plotted values are
positive and at most `maxVal / 1.1`. -/
lemma chart_bounds_aux (data : List ProjPoint) (M : ℚ)
    (hlen : data.length = 6) (hM : maxVal data = M)
    (hpts : ∀ q ∈ data,
      (0 < q.value ∧ q.value * 1.1 ≤ M) ∧ (0 < q.baseline ∧ q.baseline * 1.1 ≤ M)) :
    (∀ i, i < data.length → 20 ≤ getX data i ∧ getX data i ≤ 480) ∧
    (∀ j, j < data.length → ∀ i, i < j → getX data i < getX data j) ∧
    (∀ q ∈ data,
      (20 < getY data q.value ∧ getY data q.value < 230) ∧
      (20 < getY data q.baseline ∧ getY data q.baseline < 230)) := by
  refine ⟨?_, ?_, ?_⟩
  · intro i hi
    rw [hlen] at hi
    rw [getX_formula data hlen]
    have h0 : (0 : ℚ) ≤ (i : ℚ) := Nat.cast_nonneg i
    have h5 : (i : ℚ) ≤ 5 := by
      have : i ≤ 5 := by omega
      exact_mod_cast this
    constructor <;> linarith
  · intro j hj i hij
    rw [getX_formula data hlen, getX_formula data hlen]
    have : (i : ℚ) < (j : ℚ) := by exact_mod_cast hij
    linarith
  · intro q hq
    obtain ⟨⟨hv1, hv2⟩, hb1, hb2⟩ := hpts q hq
    exact ⟨getY_bounds data q.value hv1 (by rw [hM]; exact hv2),
      getY_bounds data q.baseline hb1 (by rw [hM]; exact hb2)⟩

/-- Claim C5: for every strategy in the `STRATEGIES` table the projection
has 6 points (so the `data.length - 1` divisor is nonzero), `getX` maps
index `i` into `[20, 480]` strictly increasingly, and - because `maxVal` is
1.1 times the maximum plotted value - `getY` maps every plotted `value` and
`baseline` into the open interval `(20, 230)` inside the 500 by 250
viewBox. -/
theorem claim_C5_chart_bounds :
    ∀ p ∈ STRATEGIES,
      p.2.projection.length = 6 ∧
      (∀ i, i < p.2.projection.length →
        20 ≤ getX p.2.projection i ∧ getX p.2.projection i ≤ 480) ∧
      (∀ j, j < p.2.projection.length → ∀ i, i < j →
        getX p.2.projection i < getX p.2.projection j) ∧
      (∀ q ∈ p.2.projection,
        (20 < getY p.2.projection q.value ∧ getY p.2.projection q.value < 230) ∧
        (20 < getY p.2.projection q.baseline ∧ getY p.2.projection q.baseline < 230)) := by
  intro p hp
  have hcases : p = ("conservative", conservative) ∨ p = ("balanced", balanced) ∨
      p = ("aggressive", aggressive) := by simpa [STRATEGIES] using hp
  rcases hcases with rfl | rfl | rfl <;> dsimp only
  · obtain ⟨hA, hB, hC⟩ := chart_bounds_aux conservative.projection 429 rfl
      (by norm_num [maxVal, conservative, max_def])
      (by intro q hq
          simp [conservative] at hq
          rcases hq with rfl | rfl | rfl | rfl | rfl | rfl <;> norm_num)
    exact ⟨rfl, hA, hB, hC⟩
  · obtain ⟨hA, hB, hC⟩ := chart_bounds_aux balanced.projection 429 rfl
      (by norm_num [maxVal, balanced, max_def])
      (by intro q hq
          simp [balanced] at hq
          rcases hq with rfl | rfl | rfl | rfl | rfl | rfl <;> norm_num)
    exact ⟨rfl, hA, hB, hC⟩
  · obtain ⟨hA, hB, hC⟩ := chart_bounds_aux aggressive.projection 792 rfl
      (by norm_num [maxVal, aggressive, max_def])
      (by intro q hq
          simp [aggressive] at hq
          rcases hq with rfl | rfl | rfl | rfl | rfl | rfl <;> norm_num)
    exact ⟨rfl, hA, hB, hC⟩

/-- Witness for C5 at the `balanced` entry of the table. -/
theorem claim_C5_witness :
    ("balanced", balanced) ∈ STRATEGIES ∧ balanced.projection.length = 6 :=
  ⟨by simp [STRATEGIES], (claim_C5_chart_bounds ("balanced", balanced) (by simp [STRATEGIES])).1⟩

/-- Claim C6: a failed generation is represented solely as the `ApiError`
value (required `message`, optional `details`) with status
`GenerationStatus.ERROR`; the handler has no retry, caching, or other
recovery path - the error outcome maps directly to the error display
state. -/
theorem claim_C6_error_representation (prompt gid : String) (ts : Int) (e : ApiError) :
    handleGeneration prompt gid ts (Except.error e) =
      { status := GenerationStatus.ERROR, current := none, error := some e } :=
  rfl

/-- Claim C7: on success the tool forwards the submitted prompt to the API
unchanged and produces a `GeneratedSvg` record whose `prompt` field equals
the submitted prompt, with an id, the SVG content string, and a
timestamp. -/
theorem claim_C7_success_forwards_prompt (prompt gid content : String) (ts : Int) :
    apiRequestPrompt prompt = prompt ∧
    handleGeneration prompt gid ts (Except.ok content) =
      { status := GenerationStatus.SUCCESS
        current := some { id := gid, content := content, prompt := prompt, timestamp := ts }
        error := none } :=
  ⟨rfl, rfl⟩

/-- A single log operation always leaves at most 5 entries. -/
lemma applyLogOp_length_le (logs : List EngineLog) (op : LogOp) :
    (applyLogOp logs op).length ≤ 5 := by
  cases op with
  | add m t =>
    simp [applyLogOp, addLogList]
    omega
  | reset => simp [applyLogOp]

/-- Folding log operations preserves the 5-entry bound. -/
lemma foldl_logOps_length_le (ops : List LogOp) (logs : List EngineLog)
    (h : logs.length ≤ 5) : (ops.foldl applyLogOp logs).length ≤ 5 := by
  induction ops generalizing logs with
  | nil => simpa using h
  | cons op rest ih => exact ih (applyLogOp logs op) (applyLogOp_length_le logs op)

/-- Claim C8: `addLog` keeps only the last 4 existing entries and appends
the new one, so after any sequence of `addLog` calls and resets starting
from the empty list, the `logs` list holds at most 5 entries. -/
theorem claim_C8_logs_bounded (ops : List LogOp) :
    (applyLogOps ops).length ≤ 5 :=
  foldl_logOps_length_le ops [] (by simp)

/-- Claim C9: for every strategy in the `STRATEGIES` table the asset
`value` fields sum to exactly 100, and the donut chart's conic-gradient
segments - each from the running sum of preceding values to that sum plus
the asset's value - cover 0% to 100% contiguously: the first starts at 0,
each segment's end equals the next one's start, and the last ends at
100. -/
theorem claim_C9_allocation_partition :
    ∀ p ∈ STRATEGIES,
      ((p.2.assets.map Asset.value).sum = 100) ∧
      (donutSegments p.2.assets).head?.map (fun seg => seg.2.1) = some 0 ∧
      List.Chain' (fun a b => a.2.2 = b.2.1) (donutSegments p.2.assets) ∧
      (donutSegments p.2.assets).getLast?.map (fun seg => seg.2.2) = some 100 := by
  intro p hp
  have hcases : p = ("conservative", conservative) ∨ p = ("balanced", balanced) ∨
      p = ("aggressive", aggressive) := by simpa [STRATEGIES] using hp
  rcases hcases with rfl | rfl | rfl <;> dsimp only
  · have hseg : donutSegments conservative.assets =
        [("#10b981", 0, 60), ("#34d399", 60, 90), ("#6ee7b7", 90, 100)] := by
      norm_num [donutSegments, conservative, List.enum, List.enumFrom]
    rw [hseg]
    refine ⟨by norm_num [conservative], rfl, ?_, rfl⟩
    norm_num [List.chain'_cons]
  · have hseg : donutSegments balanced.assets =
        [("#3b82f6", 0, 50), ("#60a5fa", 50, 70), ("#93c5fd", 70, 95), ("#bfdbfe", 95, 100)] := by
      norm_num [donutSegments, balanced, List.enum, List.enumFrom]
    rw [hseg]
    refine ⟨by norm_num [balanced], rfl, ?_, rfl⟩
    norm_num [List.chain'_cons]
  · have hseg : donutSegments aggressive.assets =
        [("#f59e0b", 0, 60), ("#fbbf24", 60, 85), ("#fcd34d", 85, 100)] := by
      norm_num [donutSegments, aggressive, List.enum, List.enumFrom]
    rw [hseg]
    refine ⟨by norm_num [aggressive], rfl, ?_, rfl⟩
    norm_num [List.chain'_cons]

/-- Witness for C9 at the `conservative` entry of the table. -/
theorem claim_C9_witness :
    ("conservative", conservative) ∈ STRATEGIES ∧
    (conservative.assets.map Asset.value).sum = 100 :=
  ⟨by simp [STRATEGIES],
    (claim_C9_allocation_partition ("conservative", conservative) (by simp [STRATEGIES])).1⟩

/-- Claim C10: calling `runSimulation` while the engine state is
`'complete'` restores exactly the initial component state (idle, empty
logs, no active engine, input step 0, no selected strategy) and returns
without appending any log or scheduling any timer. -/
theorem claim_C10_reset_restores_initial (s : CState) (h : s.state = EngineState.complete) :
    runStep s = (initialState, []) ∧ runLogMessages s = [] := by
  constructor
  · simp only [runStep, runSimulation_complete s h]
    rfl
  · simp only [runLogMessages, runActionTrace, runSimulation_complete s h]
    rfl

/-- Witness for C10 at a concrete post-run state. -/
theorem claim_C10_witness :
    completeSampleState.state = EngineState.complete ∧
    runStep completeSampleState = (initialState, []) :=
  ⟨rfl, (claim_C10_reset_restores_initial completeSampleState rfl).1⟩
